import Mathlib

/-!
Verification of the content_analyzer repository's content acquisition and
batch-orchestration pipeline, shallowly embedded from the Python source
(`src/content_processor.py`, `src/main.py`, `src/config.py`).

Browser I/O (Playwright) and HTML parsing (BeautifulSoup) are external
collaborators per the spec; they are modelled abstractly:
a `PageModel` records, per retry attempt and per CSS selector, what the
browser's selector wait would yield, and a `Doc` records the facts the
code queries from a parsed document (title text, meta description,
breadcrumb anchor texts, heading/image counts, anchor hrefs, extracted
text).  All pipeline control flow (retry loops, selector sweeps, batch
partitioning, result aggregation, error handling) is translated directly
from the source.
-/

/-- Result of calling a Python function that may raise: either a returned
value or a raised exception carrying a message.  Used to model the calls
whose exceptions the pipeline code catches (or fails to catch). -/
inductive PyResult (α : Type) where
  | val (a : α)
  | exn (msg : String)
deriving DecidableEq, Repr

/-- Python `text.split()`: split on whitespace runs, discarding empty
fragments.  Modelled over the character list. -/
def pySplit (s : String) : List String :=
  ((s.data.splitOnP (fun c => c.isWhitespace)).filter (fun cs => cs ≠ [])).map
    (fun cs => String.mk cs)

/-- Python `text.split('.')`: split at every period character, keeping
empty fragments (`"".split('.') == ['']`). -/
def pySplitDot (s : String) : List String :=
  (s.data.splitOnP (fun c => c == '.')).map (fun cs => String.mk cs)

/-- Helper for `pySplitParas`: scan the character list, emitting a fragment
at every non-overlapping occurrence of two consecutive newline characters,
like Python `text.split('\n\n')`. -/
def paraSplitGo (acc : List Char) : List Char → List String
  | [] => [String.mk acc.reverse]
  | '\n' :: '\n' :: rest => String.mk acc.reverse :: paraSplitGo [] rest
  | c :: rest => paraSplitGo (c :: acc) rest

/-- Python `text.split('\n\n')`. -/
def pySplitParas (s : String) : List String :=
  paraSplitGo [] s.data

/-- Python `text.lower()`, modelled character by character over the
character list (the pipeline's lexicons and scenarios are ASCII). -/
def pyLower (s : String) : String :=
  String.mk (s.data.map Char.toLower)

/-- Python `text.startswith(pre)`: the characters of `pre` are a prefix of
the characters of `s`. -/
def pyStartsWith (s pre : String) : Bool :=
  pre.data.isPrefixOf s.data

namespace ContentProcessor

/-- The fixed selector priority list from `fetch_content`
(src/content_processor.py lines 67-75), in source order. -/
def selectors : List String :=
  [".article-body", ".article-content", ".content-section",
   ".main-content", "#main-content", "article", "body"]

/-- Abstract model of one page as seen by the browser layer during a fetch:
`sel a s` is the text the browser yields for selector `s` on retry attempt
`a` (`none` models a selector-wait timeout), `attemptRaises a` models an
exception escaping the attempt-level try block on attempt `a`, and
`navFails` models a navigation/browser exception before the retry loop. -/
structure PageModel where
  sel : Nat → String → Option String
  attemptRaises : Nat → Bool
  navFails : Bool

/-- One sweep of the selector loop (src/content_processor.py lines 77-90):
try each selector in priority order, first one the browser yields text for
wins; return that selector together with its text. -/
def sweepSel (pm : PageModel) (a : Nat) : Option (String × String) :=
  (selectors.filterMap (fun s => (pm.sel a s).map (fun t => (s, t)))).head?

/-- The success check after a sweep: Python `content and len(content) > 100`
(src/content_processor.py line 92).  `None` and the empty string are falsy,
so the check holds exactly when text longer than 100 characters is held. -/
def contentOk : Option String → Bool
  | some t => t.length > 100
  | none => false

/-- The retry loop of `fetch_content` (src/content_processor.py lines
59-106).  `n` is the number of attempts remaining, `a` the current attempt
index, `content` the Python `content` variable (None initially, overwritten
only when some selector matched).  An attempt-level exception on the final
attempt sets `content = ""`; otherwise the loop retries.  The loop breaks
early only when the extracted text is longer than 100 characters, and the
function returns whatever `content` holds when the loop ends. -/
def fetchGo (pm : PageModel) : Nat → Nat → Option String → Option String
  | 0, _, content => content
  | n + 1, a, content =>
    if pm.attemptRaises a then
      if n = 0 then some "" else fetchGo pm n (a + 1) content
    else
      let c := match sweepSel pm a with
        | some (_, t) => some t
        | none => content
      if contentOk c then c else fetchGo pm n (a + 1) c

/-- `ContentProcessor.fetch_content` (src/content_processor.py lines
24-141): on a navigation/browser exception return `None`; otherwise run the
3-attempt retry loop and return its final `content` (which may be `None`,
the empty string, or extracted text of any length). -/
def fetch_content (pm : PageModel) : Option String :=
  if pm.navFails then none else fetchGo pm 3 0 none

end ContentProcessor

/-- Abstract model of a parsed markup document, recording exactly the facts
the BeautifulSoup queries in src/content_processor.py read from it:
the first `title` element's text, the `content` attribute of a
`meta[name=description]` element, the texts (in document order) of anchors
inside `.breadcrumb`/`.nav-breadcrumb` containers, the number of
h1-h6 headings, the number of `img` elements, the `href` attributes (in
document order) of `a[href]` elements, and the text `_extract_text`
produces after stripping script/style/nav/footer subtrees. -/
structure Doc where
  titleText : Option String
  metaDescription : Option String
  breadcrumbAnchors : List String
  headingCount : Nat
  imageCount : Nat
  anchorHrefs : List String
  textContent : String
deriving DecidableEq, Repr

/-- The metadata record built by `extract_metadata`
(src/content_processor.py lines 340-346). -/
structure PageMetadata where
  title : String
  description : String
  breadcrumbs : List String
  url : String
  timestamp : String
deriving DecidableEq, Repr

/-- The metrics record built by `analyze_content` merging the basic metrics
with the (fallback) analysis metrics (src/content_processor.py lines
384-394 and 412-419). -/
structure ContentMetrics where
  word_count : Nat
  section_count : Nat
  image_count : Nat
  links : List String
  readability_score : ℚ
  sentiment : String
  complexity_score : Nat
  structure_score : ℚ
deriving DecidableEq, Repr

namespace ContentProcessor

/-- `_extract_title` (src/content_processor.py lines 348-353): the first
title element's text, stripped; empty string when absent. -/
def extract_title (d : Doc) : String :=
  match d.titleText with
  | some t => t.trim
  | none => ""

/-- `_extract_description` (src/content_processor.py lines 355-360): the
stripped `content` attribute of `meta[name=description]`; empty string when
absent. -/
def extract_description (d : Doc) : String :=
  match d.metaDescription with
  | some c => c.trim
  | none => ""

/-- `_extract_breadcrumbs` (src/content_processor.py lines 362-370): the
stripped texts of the breadcrumb-container anchors, skipping entries that
strip to the empty string. -/
def extract_breadcrumbs (d : Doc) : List String :=
  (d.breadcrumbAnchors.map String.trim).filter (fun t => t ≠ "")

/-- `extract_metadata` (src/content_processor.py lines 327-346).  The
timestamp is `datetime.now().isoformat()` at the moment the record is
built; that wall-clock reading is the explicit parameter `ts`. -/
def extract_metadata (d : Doc) (url ts : String) : PageMetadata :=
  { title := extract_title d
    description := extract_description d
    breadcrumbs := extract_breadcrumbs d
    url := url
    timestamp := ts }

/-- `_count_words` (src/content_processor.py lines 466-468). -/
def count_words (text : String) : Nat :=
  (pySplit text).length

/-- `_extract_links` (src/content_processor.py lines 479-486): append, in
document order, every `href` value that starts with `"http"`. -/
def extract_links (hrefs : List String) : List String :=
  hrefs.filter (fun h => pyStartsWith h "http")

/-- `_calculate_readability` (src/content_processor.py lines 421-427):
average words per period-split sentence when there is more than one
sentence fragment, else 0.0. -/
def calculate_readability (text : String) : ℚ :=
  if (pySplitDot text).length > 1 then
    ((pySplit text).length : ℚ) / ((pySplitDot text).length : ℚ)
  else 0

/-- The fixed positive-word lexicon (src/content_processor.py line 431). -/
def positive_words : List String :=
  ["good", "great", "excellent", "best", "amazing"]

/-- The fixed negative-word lexicon (src/content_processor.py line 432). -/
def negative_words : List String :=
  ["bad", "poor", "terrible", "worst", "awful"]

/-- The positive-token count of `_get_basic_sentiment`
(src/content_processor.py line 434). -/
def positive_count (text : String) : Nat :=
  ((pySplit (pyLower text)).filter (fun w => positive_words.contains w)).length

/-- The negative-token count of `_get_basic_sentiment`
(src/content_processor.py line 435). -/
def negative_count (text : String) : Nat :=
  ((pySplit (pyLower text)).filter (fun w => negative_words.contains w)).length

/-- `_get_basic_sentiment` (src/content_processor.py lines 429-441). -/
def get_basic_sentiment (text : String) : String :=
  if positive_count text > negative_count text then "positive"
  else if negative_count text > positive_count text then "negative"
  else "neutral"

/-- The fixed complex-word lexicon (src/content_processor.py line 445). -/
def complex_words : List String :=
  ["implementation", "configuration", "optimization", "automation",
   "integration"]

/-- `_count_complex_words` (src/content_processor.py lines 443-446). -/
def count_complex_words (text : String) : Nat :=
  ((pySplit (pyLower text)).filter (fun w => complex_words.contains w)).length

/-- `_analyze_structure` (src/content_processor.py lines 448-451):
paragraph count over period-split sentence count, guarded by
`if len(text.split('.')) > 0 else 0.0`. -/
def analyze_structure (text : String) : ℚ :=
  if (pySplitDot text).length > 0 then
    ((pySplitParas text).length : ℚ) / ((pySplitDot text).length : ℚ)
  else 0

/-- The record returned by `_get_basic_analysis`
(src/content_processor.py lines 412-419), as the analysis-metric fields of
`ContentMetrics`. -/
def get_basic_analysis (text : String) : ℚ × String × Nat × ℚ :=
  (calculate_readability text, get_basic_sentiment text,
   count_complex_words text, analyze_structure text)

/-- `_get_api_analysis` (src/content_processor.py lines 396-410): when no
valid API key is available (`AppConfig.get_api_key` raises, caught here) it
falls back to the basic analysis, and when a key is present it still
returns the basic analysis because the API endpoints are not accessible;
both branches of the source return `_get_basic_analysis(text)`. -/
def get_api_analysis (apiKeyPresent : Bool) (text : String) :
    ℚ × String × Nat × ℚ :=
  if apiKeyPresent then get_basic_analysis text else get_basic_analysis text

/-- `analyze_content` (src/content_processor.py lines 377-394): basic
counting metrics from the parsed document merged with the API/fallback
analysis of the extracted text. -/
def analyze_content (d : Doc) (apiKeyPresent : Bool) : ContentMetrics :=
  let text := d.textContent
  let api := get_api_analysis apiKeyPresent text
  { word_count := count_words text
    section_count := d.headingCount
    image_count := d.imageCount
    links := extract_links d.anchorHrefs
    readability_score := api.1
    sentiment := api.2.1
    complexity_score := api.2.2.1
    structure_score := api.2.2.2 }

end ContentProcessor

/-- The dictionary returned by `ContentProcessor.process_url`
(src/content_processor.py lines 488-501): either the error record
`{'url': ..., 'error': 'Failed to fetch content'}` or the merged
metadata-plus-analysis success record. -/
inductive CPRecord where
  | err (url : String) (msg : String)
  | ok (metadata : PageMetadata) (metrics : ContentMetrics)
deriving DecidableEq, Repr

namespace ContentProcessor

/-- `ContentProcessor.process_url` (src/content_processor.py lines
488-501).  The extraction and analysis steps go through the external HTML
parser and may raise, so they are passed in as `PyResult`-valued functions
of the fetched content; `fetch` is the outcome of `fetch_content` per URL.
When the fetched content is falsy (`None` or `""`) the function returns
the error record immediately.  There is no try/except around the
extraction and analysis calls, so an exception they raise propagates out
of `process_url` (modelled as `PyResult.exn`). -/
def process_url
    (extract : String → PyResult PageMetadata)
    (analyze : String → PyResult ContentMetrics)
    (fetch : String → Option String) (url : String) : PyResult CPRecord :=
  match fetch url with
  | none => .val (.err url "Failed to fetch content")
  | some c =>
    if c = "" then .val (.err url "Failed to fetch content")
    else
      match extract c with
      | .exn e => .exn e
      | .val m =>
        match analyze c with
        | .exn e => .exn e
        | .val a => .val (.ok m a)

end ContentProcessor

namespace BatchProcessor

/-- `BatchProcessor.process_batch` (src/content_processor.py lines
514-525): slice `urls[start:start+batch_size]`, run `process_url` for each
URL of the slice (`asyncio.gather(..., return_exceptions=True)` yields one
value-or-exception per task, in task order), then keep only the non-
exception results — `[r for r in results if not isinstance(r, Exception)]`. -/
def process_batch (proc : String → PyResult CPRecord) (urls : List String)
    (batch_size start : Nat) : List CPRecord :=
  let batch := (urls.drop start).take batch_size
  (batch.map proc).filterMap (fun r =>
    match r with
    | .val v => some v
    | .exn _ => none)

/-- The loop body of `BatchProcessor.process_all`
(src/content_processor.py lines 527-542), recast over the not-yet-processed
suffix of the URL list: process one batch, extend the aggregate, sleep the
configured delay when more URLs remain (`i + batch_size < len(urls)`), and
recurse.  `fuel` bounds the recursion by the total URL count (for a
positive batch size the loop runs at most that many iterations); the
second component collects the durations of the inter-batch sleeps. -/
def processAllGo (proc : String → PyResult CPRecord) (batch_size : Nat)
    (delay : ℚ) : Nat → List String → List CPRecord × List ℚ
  | 0, _ => ([], [])
  | _, [] => ([], [])
  | fuel + 1, remaining =>
    let batchResults :=
      ((remaining.take batch_size).map proc).filterMap (fun r =>
        match r with
        | .val v => some v
        | .exn _ => none)
    let rest := remaining.drop batch_size
    let next := processAllGo proc batch_size delay fuel rest
    (batchResults ++ next.1,
     (if rest.isEmpty then [] else [delay]) ++ next.2)

/-- `BatchProcessor.process_all` (src/content_processor.py lines 527-542):
iterate `process_batch` over consecutive batches, sleeping
`AppConfig.DEFAULT_DELAY` (the parameter `delay`) between batches but not
after the last one. -/
def process_all (proc : String → PyResult CPRecord) (urls : List String)
    (batch_size : Nat) (delay : ℚ) : List CPRecord × List ℚ :=
  processAllGo proc batch_size delay urls.length urls

end BatchProcessor

/-- The dictionary returned by `process_url` in src/main.py lines 90-115:
`{'url', 'status': 'success', 'content', 'length'}` on truthy content,
`{'url', 'status': 'error', 'error': ...}` otherwise. -/
inductive MainRecord where
  | ok (url : String) (content : String)
  | err (url : String) (errorMsg : String)
deriving DecidableEq, Repr

namespace Main

/-- `process_url` in src/main.py lines 90-115: fetch the page (the world
`w` gives each URL's page behaviour); truthy content yields the success
record, falsy content (`None` or `""`) yields the
`'No content extracted'` error record.  The surrounding try/except turns
any escaping exception into an error record, but
`ContentProcessor.fetch_content` already catches every exception
internally, so the fetch itself never raises. -/
def process_url (w : String → ContentProcessor.PageModel)
    (url : String) : MainRecord :=
  match ContentProcessor.fetch_content (w url) with
  | none => .err url "No content extracted"
  | some c =>
    if c = "" then .err url "No content extracted"
    else .ok url c

/-- The loop body of `process_batch` in src/main.py lines 117-136, recast
over the not-yet-processed suffix: gather `process_url` over the batch
slice (every call returns a record, so the gather yields one record per
URL in order), extend the aggregate, sleep `delay` when
`i + batch_size < len(urls)`, recurse.  The second component collects the
inter-batch sleep durations. -/
def processBatchGo (w : String → ContentProcessor.PageModel)
    (batch_size : Nat) (delay : ℚ) :
    Nat → List String → List MainRecord × List ℚ
  | 0, _ => ([], [])
  | _, [] => ([], [])
  | fuel + 1, remaining =>
    let batchResults := (remaining.take batch_size).map (process_url w)
    let rest := remaining.drop batch_size
    let next := processBatchGo w batch_size delay fuel rest
    (batchResults ++ next.1,
     (if rest.isEmpty then [] else [delay]) ++ next.2)

/-- `process_batch` in src/main.py lines 117-136: the rate-limited batch
loop over the whole URL list. -/
def process_batch (w : String → ContentProcessor.PageModel)
    (urls : List String) (batch_size : Nat) (delay : ℚ) :
    List MainRecord × List ℚ :=
  processBatchGo w batch_size delay urls.length urls

end Main

/-- A 40-character text: the only extractable text of the short-content
scenario pages. -/
def t40 : String := String.mk (List.replicate 40 'a')

/-- A page on which every attempt finds text only under the `body` selector,
and that text is 40 characters long. -/
def pmShort : ContentProcessor.PageModel :=
  { sel := fun _ s => if s = "body" then some t40 else none
    attemptRaises := fun _ => false
    navFails := false }

/-- A page on which every attempt raises past the attempt-level try block,
so the final attempt sets `content = ""` and the fetch returns the empty
string. -/
def pmEmptyPage : ContentProcessor.PageModel :=
  { sel := fun _ _ => none
    attemptRaises := fun _ => true
    navFails := false }

/-- A page whose navigation fails, so the fetch returns `None` (the
transport-failure outcome). -/
def pmNavFail : ContentProcessor.PageModel :=
  { sel := fun _ _ => none
    attemptRaises := fun _ => false
    navFails := true }

/-- If the selector sweep of attempt `a` yielded text `t` (under whichever
selector), then some selector matched with exactly that text. -/
theorem sweepSel_text_some {pm : ContentProcessor.PageModel} {a : Nat}
    {t : String}
    (h : (ContentProcessor.sweepSel pm a).map Prod.snd = some t) :
    ∃ s, ContentProcessor.sweepSel pm a = some (s, t) := by
  cases hc : ContentProcessor.sweepSel pm a with
  | none => rw [hc] at h; simp at h
  | some p =>
    obtain ⟨s, u⟩ := p
    rw [hc] at h
    simp only [Option.map_some', Option.some.injEq] at h
    exact ⟨s, by rw [h]⟩

/-- First-match characterization of a `filterMap`-then-`head?` scan: if
`f` rejects every element of the list before position `k` and accepts the
element at position `k` with value `b`, the scan yields `b`. -/
theorem head?_filterMap_first {α β : Type} (f : α → Option β) :
    ∀ (l : List α) (k : Nat) (hk : k < l.length) (b : β),
      (∀ j (hj : j < k), f (l.get ⟨j, Nat.lt_trans hj hk⟩) = none) →
      f (l.get ⟨k, hk⟩) = some b →
      (l.filterMap f).head? = some b := by
  intro l
  induction l with
  | nil =>
    intro k hk
    exact absurd hk (by simp)
  | cons x xs ih =>
    intro k hk b hprev hcur
    cases k with
    | zero =>
      have hcur' : f x = some b := hcur
      rw [List.filterMap_cons, hcur']
      rfl
    | succ j =>
      have hx : f x = none := hprev 0 (Nat.succ_pos j)
      rw [List.filterMap_cons, hx]
      exact ih j (Nat.lt_of_succ_lt_succ hk) b
        (fun i hi => hprev (i + 1) (Nat.succ_lt_succ hi)) hcur

/-- C5.  `fetch_content` iterates the fixed selector priority list
`.article-body, .article-content, .content-section, .main-content,
#main-content, article, body` in exactly that order and the first matching
selector wins: the selector list is pinned to the source's order, and for
every position `k` of that list, whenever the browser yields no text for
every selector before position `k` and yields text `t` at position `k`,
the sweep's matched selector is the one at position `k`.  In particular,
on a page where only `body` (position 6, the last) matches, the matched
selector is `body`. -/
theorem C5_selector_priority :
    ContentProcessor.selectors =
      [".article-body", ".article-content", ".content-section",
       ".main-content", "#main-content", "article", "body"] ∧
    ∀ (pm : ContentProcessor.PageModel) (a k : Nat)
      (hk : k < ContentProcessor.selectors.length) (t : String),
      (∀ j (hj : j < k),
        pm.sel a (ContentProcessor.selectors.get ⟨j, Nat.lt_trans hj hk⟩) =
          none) →
      pm.sel a (ContentProcessor.selectors.get ⟨k, hk⟩) = some t →
      ContentProcessor.sweepSel pm a =
        some (ContentProcessor.selectors.get ⟨k, hk⟩, t) := by
  refine ⟨rfl, ?_⟩
  intro pm a k hk t hprev hcur
  rw [ContentProcessor.sweepSel]
  exact head?_filterMap_first _ ContentProcessor.selectors k hk _
    (fun j hj => by rw [hprev j hj]; rfl)
    (by rw [hcur]; rfl)

/-- Witness for C5: on the body-only page, every selector before position
6 misses, position 6 is `body`, and the sweep matches `body` with its
40-character text. -/
theorem C5_selector_priority_witness :
    ContentProcessor.sweepSel pmShort 0 = some ("body", t40) :=
  C5_selector_priority.2 pmShort 0 6 (by decide) t40
    (by intro j hj; interval_cases j <;> rfl) rfl

/-- C2 counterexample.  On a page whose only extractable text is the
40-character `body` text, `fetch_content` exhausts all selectors in all 3
attempts and returns the short text itself — a truthy, non-empty string —
not the empty/None outcome the claim calls `Empty`. -/
theorem C2_counterexample :
    ContentProcessor.fetch_content pmShort = some t40 ∧
    t40.length = 40 ∧ t40 ≠ "" := by
  decide

/-- C2 as amended.  When navigation succeeds, no attempt raises, every
attempt's selector sweep extracts the same text `t`, and `t` is at most
100 characters long, `fetch_content` returns `some t` — the short text
itself rather than the `Empty` outcome. -/
theorem C2_short_fetch_returns_text :
    ∀ (pm : ContentProcessor.PageModel) (t : String),
      pm.navFails = false →
      (∀ a, pm.attemptRaises a = false) →
      (∀ a, (ContentProcessor.sweepSel pm a).map Prod.snd = some t) →
      t.length ≤ 100 →
      ContentProcessor.fetch_content pm = some t := by
  intro pm t hnav hraise hsweep hlen
  obtain ⟨s0, h0⟩ := sweepSel_text_some (hsweep 0)
  obtain ⟨s1, h1⟩ := sweepSel_text_some (hsweep 1)
  obtain ⟨s2, h2⟩ := sweepSel_text_some (hsweep 2)
  have hok : ContentProcessor.contentOk (some t) = false := by
    simp only [ContentProcessor.contentOk, decide_eq_false_iff_not]
    omega
  simp [ContentProcessor.fetch_content, hnav, ContentProcessor.fetchGo,
    hraise 0, hraise 1, hraise 2, h0, h1, h2, hok]

/-- Witness for C2: the amended theorem applied to the 40-character page. -/
theorem C2_short_fetch_returns_text_witness :
    ContentProcessor.fetch_content pmShort = some t40 :=
  C2_short_fetch_returns_text pmShort t40 rfl (fun _ => rfl)
    (fun _ => rfl) (by decide)

/-- A concrete metadata record used by the stub extractors of the batch
scenarios. -/
def meta0 : PageMetadata :=
  { title := "Setup Guide", description := "How to configure X",
    breadcrumbs := [], url := "http://u2", timestamp := "2024-01-01T00:00:00" }

/-- A concrete metrics record used by the stub analyzers of the batch
scenarios. -/
def metrics0 : ContentMetrics :=
  { word_count := 2, section_count := 0, image_count := 0, links := [],
    readability_score := 0, sentiment := "neutral", complexity_score := 0,
    structure_score := 1 }

/-- A metadata extractor that always succeeds. -/
def exStub : String → PyResult PageMetadata := fun _ => .val meta0

/-- A content analyzer that always succeeds. -/
def anStub : String → PyResult ContentMetrics := fun _ => .val metrics0

/-- A metadata extractor that always raises. -/
def exRaise : String → PyResult PageMetadata :=
  fun _ => .exn "metadata extraction raised"

/-- A metadata extractor that raises exactly on the content of the first
scenario URL. -/
def exSelective : String → PyResult PageMetadata :=
  fun c => if c = "boom page" then .exn "analysis exploded" else .val meta0

/-- The fetch outcomes of the two-URL sibling scenario: both pages fetch
successfully, the first with content whose analysis raises. -/
def fetchTwo : String → Option String :=
  fun u => if u = "http://u1" then some "boom page" else some "fine page"

/-- C3 counterexample.  The `Empty` outcome (fetch returned the empty
string: page loaded, nothing substantial) and the `Failure` outcome (fetch
returned None: transport/browser error) produce byte-identical error
records, in `ContentProcessor.process_url` and in main's `process_url`
alike — there is no distinct `EmptyContent` kind anywhere in the
pipeline's records. -/
theorem C3_counterexample :
    ContentProcessor.process_url exStub anStub (fun _ => some "") "http://u" =
      ContentProcessor.process_url exStub anStub (fun _ => none) "http://u" ∧
    Main.process_url (fun _ => pmEmptyPage) "http://u" =
      Main.process_url (fun _ => pmNavFail) "http://u" ∧
    ContentProcessor.fetch_content pmEmptyPage = some "" ∧
    ContentProcessor.fetch_content pmNavFail = none := by
  decide

/-- C3 as amended.  When the fetch outcome for a URL is `Empty` (the empty
string) or `Failure` (None), both per-URL processors return an error
record immediately, and `ContentProcessor.process_url` does so without
invoking the metadata extractor or the content analyzer (its result is the
same for every choice of extractor and analyzer); the `Empty` case is
recorded with the same generic fetch-error record as transport failure,
not with a distinct `EmptyContent` kind. -/
theorem C3_empty_or_failure_is_err :
    (∀ (extract extract' : String → PyResult PageMetadata)
       (analyze analyze' : String → PyResult ContentMetrics)
       (fetch : String → Option String) (url : String),
       fetch url = none ∨ fetch url = some "" →
       ContentProcessor.process_url extract analyze fetch url =
         .val (.err url "Failed to fetch content") ∧
       ContentProcessor.process_url extract analyze fetch url =
         ContentProcessor.process_url extract' analyze' fetch url) ∧
    (∀ (w : String → ContentProcessor.PageModel) (url : String),
       ContentProcessor.fetch_content (w url) = none ∨
         ContentProcessor.fetch_content (w url) = some "" →
       Main.process_url w url = .err url "No content extracted") := by
  constructor
  · intro extract extract' analyze analyze' fetch url h
    rcases h with h | h <;>
      simp [ContentProcessor.process_url, h]
  · intro w url h
    rcases h with h | h <;>
      simp [Main.process_url, h]

/-- Witness for C3: the amended theorem applied to a transport failure at
`ContentProcessor.process_url` and an `Empty` outcome at main's
`process_url`. -/
theorem C3_empty_or_failure_is_err_witness :
    (ContentProcessor.process_url exStub anStub (fun _ => none) "http://u" =
       .val (.err "http://u" "Failed to fetch content") ∧
     ContentProcessor.process_url exStub anStub (fun _ => none) "http://u" =
       ContentProcessor.process_url exRaise anStub (fun _ => none)
         "http://u") ∧
    Main.process_url (fun _ => pmEmptyPage) "http://u" =
      .err "http://u" "No content extracted" :=
  ⟨C3_empty_or_failure_is_err.1 exStub exRaise anStub anStub
      (fun _ => none) "http://u" (Or.inl rfl),
   C3_empty_or_failure_is_err.2 (fun _ => pmEmptyPage) "http://u"
      (Or.inr (by decide))⟩

/-- C1.  A per-URL task that raises (here: metadata extraction raising on
successfully fetched content) is filtered out of the gathered batch
results by `BatchProcessor.process_batch`, so the run returns zero results
for a one-URL input — the "one UrlResult per input URL, no drops"
invariant fails on the code. -/
theorem C1_batch_drops_raised_url :
    (BatchProcessor.process_batch
        (ContentProcessor.process_url exRaise anStub (fun _ => some "page"))
        ["http://u1"] 1 0).length = 0 ∧
    (["http://u1"] : List String).length = 1 := by
  decide

/-- C4.  An exception raised during metadata extraction on successfully
fetched content escapes `ContentProcessor.process_url` (there is no
try/except around extraction/analysis) and is then silently dropped by the
batch layer rather than converted to an error record: over the two-URL
input, the aggregate holds only the sibling URL's success record, no
`Err(url, AnalysisError, message)` for the failing URL.  The sibling URL
is unaffected and the run completes. -/
theorem C4_analysis_exception_dropped_not_converted :
    ContentProcessor.process_url exSelective anStub fetchTwo "http://u1" =
      .exn "analysis exploded" ∧
    (BatchProcessor.process_all
        (ContentProcessor.process_url exSelective anStub fetchTwo)
        ["http://u1", "http://u2"] 1 2).1 = [.ok meta0 metrics0] := by
  decide

/-- The five-URL input of the batch-pacing scenario. -/
def urls5 : List String :=
  ["http://u1", "http://u2", "http://u3", "http://u4", "http://u5"]

/-- A world in which every URL is the short-content page. -/
def w5 : String → ContentProcessor.PageModel := fun _ => pmShort

/-- C6 counterexample.  Over 5 URLs with batch size 2 and configured delay
2, the scheduler's two inter-batch sleeps are each exactly the configured
delay — `[2, 2]` — not values jittered by plus/minus 20 percent: the
source sleeps the `delay` argument unchanged (`await asyncio.sleep(delay)`,
src/main.py line 134), and the jittered helper in src/config.py lines
64-70 is shadowed by a later un-jittered definition and called nowhere. -/
theorem C6_counterexample :
    (Main.process_batch w5 urls5 2 2).2 = [2, 2] := by
  decide

/-- C6 as amended.  For every 5-URL input with batch size 2, exactly two
inter-batch delays occur — after batch 1 and after batch 2, none after the
final batch — and each sleeps exactly the configured delay, unjittered. -/
theorem C6_two_delays_exact :
    ∀ (w : String → ContentProcessor.PageModel) (urls : List String)
      (d : ℚ),
      urls.length = 5 →
      (Main.process_batch w urls 2 d).2 = [d, d] := by
  intro w urls d h
  match urls, h with
  | [u1, u2, u3, u4, u5], _ =>
    simp [Main.process_batch, Main.processBatchGo]

/-- Witness for C6: the amended theorem on the concrete five-URL input with
delay 7. -/
theorem C6_two_delays_exact_witness :
    (Main.process_batch w5 urls5 2 7).2 = [7, 7] :=
  C6_two_delays_exact w5 urls5 7 rfl

/-- C7.  The sentiment label is a majority vote between the fixed
positive-word and negative-word lexicons over the lowercased
whitespace-split tokens: more positive than negative tokens yields
`positive`, more negative than positive yields `negative`, a tie yields
`neutral`; and text containing `great` twice and `bad` once resolves to
`positive`. -/
theorem C7_sentiment_majority_vote :
    (∀ t : String,
       ContentProcessor.positive_count t > ContentProcessor.negative_count t →
       ContentProcessor.get_basic_sentiment t = "positive") ∧
    (∀ t : String,
       ContentProcessor.negative_count t > ContentProcessor.positive_count t →
       ContentProcessor.get_basic_sentiment t = "negative") ∧
    (∀ t : String,
       ContentProcessor.positive_count t = ContentProcessor.negative_count t →
       ContentProcessor.get_basic_sentiment t = "neutral") ∧
    ContentProcessor.get_basic_sentiment "great great bad" = "positive" := by
  refine ⟨?_, ?_, ?_, by decide⟩
  · intro t h
    simp [ContentProcessor.get_basic_sentiment, h]
  · intro t h
    simp [ContentProcessor.get_basic_sentiment, h, Nat.lt_asymm h]
  · intro t h
    simp [ContentProcessor.get_basic_sentiment, h]

/-- Witness for C7: each branch of the majority vote at a concrete text. -/
theorem C7_sentiment_majority_vote_witness :
    ContentProcessor.get_basic_sentiment "great great bad" = "positive" ∧
    ContentProcessor.get_basic_sentiment "bad product" = "negative" ∧
    ContentProcessor.get_basic_sentiment "hello world" = "neutral" :=
  ⟨C7_sentiment_majority_vote.1 "great great bad" (by decide),
   C7_sentiment_majority_vote.2.1 "bad product" (by decide),
   C7_sentiment_majority_vote.2.2.1 "hello world" (by decide)⟩

/-- The metadata record with its timestamp field cleared, for comparing
records up to the timestamp. -/
def metadataSansTimestamp (m : PageMetadata) : PageMetadata :=
  { m with timestamp := "" }

/-- C8.  Metadata extraction and content analysis are pure and
deterministic over the parsed document: two extractions of the same
document differ at most in the timestamp field (identical once that field
is excluded), and the analysis result is identical across calls and does
not even depend on the environment's API-key state, since every branch of
`_get_api_analysis` falls back to the basic analysis. -/
theorem C8_extraction_analysis_deterministic :
    (∀ (d : Doc) (url t1 t2 : String),
       metadataSansTimestamp (ContentProcessor.extract_metadata d url t1) =
         metadataSansTimestamp (ContentProcessor.extract_metadata d url t2)) ∧
    (∀ (d : Doc) (k1 k2 : Bool),
       ContentProcessor.analyze_content d k1 =
         ContentProcessor.analyze_content d k2) := by
  constructor
  · intro d url t1 t2
    rfl
  · intro d k1 k2
    cases k1 <;> cases k2 <;> rfl

/-- The parsed document of the duplicate-link scenario: two anchors with
the identical absolute href and one relative href. -/
def docDup : Doc :=
  { titleText := some "T", metaDescription := none, breadcrumbAnchors := [],
    headingCount := 0, imageCount := 0,
    anchorHrefs := ["http://a.com/x", "http://a.com/x", "/relative"],
    textContent := "" }

/-- C9 counterexample.  On markup with two anchors carrying the identical
absolute href, the links field keeps both copies: it is a list with
duplicates, not a set. -/
theorem C9_counterexample :
    (ContentProcessor.analyze_content docDup true).links =
      ["http://a.com/x", "http://a.com/x"] ∧
    ¬ (ContentProcessor.analyze_content docDup true).links.Nodup := by
  decide

/-- C9 as amended.  The links field is exactly the list, in document
order and with duplicates preserved, of the document's anchor href values
that start with `"http"`: it equals the filter of the anchor hrefs by
that predicate, and consequently a string is an entry of the links field
precisely when it is an anchor href starting with `"http"` (completeness
as well as soundness). -/
theorem C9_links_filter_of_anchors :
    ∀ (d : Doc) (k : Bool),
      (ContentProcessor.analyze_content d k).links =
        d.anchorHrefs.filter (fun h => pyStartsWith h "http") ∧
      ∀ l : String,
        l ∈ (ContentProcessor.analyze_content d k).links ↔
          l ∈ d.anchorHrefs ∧ pyStartsWith l "http" = true := by
  intro d k
  have hlinks : (ContentProcessor.analyze_content d k).links =
      d.anchorHrefs.filter (fun h => pyStartsWith h "http") := rfl
  refine ⟨hlinks, ?_⟩
  intro l
  rw [hlinks, List.mem_filter]

/-- Witness for C9: at the duplicate-link document, the theorem puts the
absolute href in the links field and keeps the relative href out of it. -/
theorem C9_links_filter_of_anchors_witness :
    "http://a.com/x" ∈ (ContentProcessor.analyze_content docDup true).links ∧
    "/relative" ∉ (ContentProcessor.analyze_content docDup true).links :=
  ⟨((C9_links_filter_of_anchors docDup true).2 "http://a.com/x").mpr
      (by decide),
   fun h =>
     absurd (((C9_links_filter_of_anchors docDup true).2 "/relative").mp h).2
       (by decide)⟩

/-- C10.  The fallback score computations are division-safe for every
input string: splitting on the period character always yields at least one
fragment, so the structure score is always the paragraph count divided by
the (positive) sentence count and its `0.0` guard branch is unreachable;
and the readability computation returns 0 without dividing whenever the
period split yields at most one fragment. -/
theorem C10_division_safe :
    ∀ t : String,
      0 < (pySplitDot t).length ∧
      ContentProcessor.analyze_structure t =
        ((pySplitParas t).length : ℚ) / ((pySplitDot t).length : ℚ) ∧
      ((pySplitDot t).length ≤ 1 →
        ContentProcessor.calculate_readability t = 0) := by
  intro t
  have hpos : 0 < (pySplitDot t).length := by
    rw [pySplitDot, List.length_map]
    exact List.length_pos.mpr (List.splitOnP_ne_nil _ t.data)
  refine ⟨hpos, ?_, ?_⟩
  · simp [ContentProcessor.analyze_structure, hpos]
  · intro h
    simp only [ContentProcessor.calculate_readability]
    rw [if_neg (by omega)]

/-- Witness for C10: on text without a period the split yields one
fragment, the sentence count is positive, and the readability fallback is
0. -/
theorem C10_division_safe_witness :
    0 < (pySplitDot "no periods here").length ∧
    ContentProcessor.calculate_readability "no periods here" = 0 :=
  ⟨(C10_division_safe "no periods here").1,
   (C10_division_safe "no periods here").2.2 (by decide)⟩
